import Mathlib

/-!
Verification development for an Anki add-on that (a) clones a note into a
"translated copy" with tag-based duplicate prevention and a configurable
destination deck (source file `__init__.py`), and (b) translates the text of a
note's fields through a remote provider and stores the result in a fresh note
(source files `translate.py`, `config.py`, `providers.py`).

The host application's collection is modelled as explicit state: a list of
notes (each with an id, named fields, tags and, once inserted, a deck id) plus
a name-to-id table of decks.  Configuration dictionaries are modelled as
structures of `Option` fields so that an absent key (`none`) and a present key
are distinguished, mirroring Python's `dict.get(key, default)` and the
falsy-`or` idiom (`x or y`, where the empty string is falsy).  The remote
translation provider is an oracle function from the full request to the
response text, and every definition that may perform HTTP traffic also returns
the number of requests it issued.
-/

/-- A note of the host collection: stable id, ordered named fields, tags, and
the deck its cards live in (0 before insertion; the deck id is re-asserted for
every card on insertion, so one deck id per note suffices). -/
structure Note where
  id : Nat
  fields : List (String × String)
  tags : List String
  did : Nat
deriving Repr, DecidableEq

/-- A card: used by the workflows only to resolve a representative deck. -/
structure Card where
  did : Nat
deriving Repr, DecidableEq

/-- The host collection state: notes, the deck name-to-id table, and fresh-id
counters for decks and notes. -/
structure Col where
  notes : List Note
  decks : List (String × Nat)
  nextDeckId : Nat
  nextNoteId : Nat
deriving Repr, DecidableEq

/-- Host collaborator `mw.col.decks.id(name)` (spec section 6: deck id
resolution/creation by name): return the id of the deck with this name,
creating the deck first when no deck has the name. -/
def decks_id (name : String) (col : Col) : Nat × Col :=
  match col.decks.find? (fun d => d.1 == name) with
  | some d => (d.2, col)
  | none =>
      (col.nextDeckId,
        { col with decks := col.decks ++ [(name, col.nextDeckId)],
                   nextDeckId := col.nextDeckId + 1 })

/-- The id of the deck with this name, when one exists. -/
def deckIdNamed (col : Col) (name : String) : Option Nat :=
  (col.decks.find? (fun d => d.1 == name)).map (fun d => d.2)

/-- Host collaborator `mw.col.find_notes('tag:"t" tag:"m"')` as used by
`_already_copied` (spec section 6: the two-term tag query is logical AND):
the ids of all notes carrying both tags. -/
def find_notes_both (t m : String) (col : Col) : List Nat :=
  (col.notes.filter (fun n => n.tags.contains t && n.tags.contains m)).map
    (fun n => n.id)

/-- Host collaborator for note insertion, folding together `_add_note_compat`
(lines 137-153 of `__init__.py`, which tries both historical `add_note`
signatures) and `_move_new_cards_to_deck` (lines 156-166, which re-asserts the
deck id on every card after insertion): the net effect on the collection is
that the note is appended with a fresh id and all its cards in deck `did`. -/
def add_note (n : Note) (did : Nat) (col : Col) : Col :=
  { col with
    notes := col.notes ++ [{ n with id := col.nextNoteId, did := did }],
    nextNoteId := col.nextNoteId + 1 }

/-- Python's `str.strip()`: drop leading and trailing whitespace.  Written
structurally over the character list (rather than through `String.trim`,
whose well-founded recursion does not evaluate in the kernel) so that
concrete instances compute. -/
def pyStrip (s : String) : String :=
  ⟨((s.data.dropWhile Char.isWhitespace).reverse.dropWhile Char.isWhitespace).reverse⟩

/-- Python's `str.lower()`, character by character. -/
def pyLower (s : String) : String :=
  ⟨s.data.map Char.toLower⟩

/-- Duck-typed field lookup `note[name]` as an option. -/
def lookupF (n : Note) (name : String) : Option String :=
  (n.fields.find? (fun p => p.1 == name)).map (fun p => p.2)

/-- Duck-typed field presence test `name in note`. -/
def hasField (n : Note) (name : String) : Bool :=
  n.fields.any (fun p => p.1 == name)

/-- `note[name]` where the caller has checked presence (`translate.py` reads
fields only after its field-existence guards); absent fields read as "". -/
def readField (n : Note) (name : String) : String :=
  (lookupF n name).getD ""

/-- `_get_field` (`__init__.py` lines 79-83): `(note[name] or "").strip()`
with every exception (in particular a missing field) mapped to "". -/
def _get_field (n : Note) (name : String) : String :=
  pyStrip ((lookupF n name).getD "")

/-- `_set_field` (`__init__.py` lines 86-91): write the field only when the
name is present; otherwise do nothing. -/
def _set_field (n : Note) (name value : String) : Note :=
  if n.fields.any (fun p => p.1 == name) then
    { n with fields := n.fields.map (fun p => if p.1 == name then (p.1, value) else p) }
  else n

/-- Unconditional field write `note[name] = value`, as `translate.py` performs
it on fields it has already checked to exist. -/
def writeField (n : Note) (name value : String) : Note :=
  { n with fields := n.fields.map (fun p => if p.1 == name then (p.1, value) else p) }

/-- The configuration dictionary of `__init__.py` (`DEFAULT_CONFIG` keys).
`none` models an absent key.  The source key for `tag_srcnid` is the
tracking-tag option `tag_srcnid_` + `prefix` of `DEFAULT_CONFIG` line 39. -/
structure CopyCfg where
  question_source_field : Option String
  question_target_field : Option String
  answer_source_field : Option String
  answer_target_field : Option String
  copy_dest_mode : Option String
  copy_dest_deck_name : Option String
  copy_only_if_translated : Option Bool
  copy_skip_if_already_copied : Option Bool
  tag_copied : Option String
  tag_srcnid : Option String
deriving Repr, DecidableEq

/-- `str(cfg.get("copy_dest_mode", "same_deck")).strip().lower()`
(`__init__.py` line 95). -/
def effMode (cfg : CopyCfg) : String :=
  pyLower (pyStrip (cfg.copy_dest_mode.getD "same_deck"))

/-- `str(cfg.get("copy_dest_deck_name", "Default") or "Default").strip() or
"Default"` (`__init__.py` line 102). -/
def effDeckName (cfg : CopyCfg) : String :=
  let raw :=
    match cfg.copy_dest_deck_name with
    | some s => if s = "" then "Default" else s
    | none => "Default"
  if pyStrip raw = "" then "Default" else pyStrip raw

/-- `_resolve_dest_deck_id` (`__init__.py` lines 94-114): `same_deck` uses the
source card's deck id (with 0 coerced to 1 by `or 1`); otherwise the name is
"Default" for mode `default` and the configured name for every other mode, and
the deck id is resolved (creating the deck) through the host. -/
def _resolve_dest_deck_id (src_card : Card) (cfg : CopyCfg) (col : Col) : Nat × Col :=
  if effMode cfg = "same_deck" then
    ((if src_card.did = 0 then 1 else src_card.did), col)
  else
    decks_id (if effMode cfg = "default" then "Default" else effDeckName cfg) col

/-- `_marker_tag_for_nid` (`__init__.py` lines 117-120): tracking tag
`{pre}{nid}` where `pre` is `cfg.get("tag_srcnid_" + "prefix", "srcnid_") or
"srcnid_"` (the falsy-`or` turns an empty configured string into the
default). -/
def _marker_tag_for_nid (nid : Nat) (cfg : CopyCfg) : String :=
  (match cfg.tag_srcnid with
   | some p => if p = "" then "srcnid_" else p
   | none => "srcnid_") ++ toString nid

/-- The "copied" tag the dedupe query searches for (`__init__.py` line 126):
`str(cfg.get("tag_copied", "AI_TranslatedCopy") or "AI_TranslatedCopy").strip()`. -/
def effTagCopiedQ (cfg : CopyCfg) : String :=
  pyStrip
    (match cfg.tag_copied with
     | some t => if t = "" then "AI_TranslatedCopy" else t
     | none => "AI_TranslatedCopy")

/-- The "copied" tag the new note is given (`__init__.py` line 198):
`str(cfg.get("tag_copied", "AI_TranslatedCopy") or "").strip()` — note the
falsy fallback is the empty string here, unlike in the dedupe query. -/
def effTagCopiedAdd (cfg : CopyCfg) : String :=
  pyStrip
    (match cfg.tag_copied with
     | some t => t
     | none => "AI_TranslatedCopy")

/-- `_already_copied` (`__init__.py` lines 123-134): `False` when the skip
flag is off; otherwise whether any note carries both the "copied" tag and the
source note's tracking tag. -/
def _already_copied (src_nid : Nat) (cfg : CopyCfg) (col : Col) : Bool :=
  if cfg.copy_skip_if_already_copied.getD true then
    !(find_notes_both (effTagCopiedQ cfg) (_marker_tag_for_nid src_nid cfg) col).isEmpty
  else false

/-- The new note built by `create_translated_copy_from_note` lines 186-213:
a fresh note of the source's note type (same field names, empty values, no
tags), the question/answer source fields set to the source note's
question/answer target values, then the "copied" tag (when non-empty) and the
tracking tag appended. -/
def mkCopyNote (src_note : Note) (cfg : CopyCfg) : Note :=
  let q_t := _get_field src_note (cfg.question_target_field.getD "Front_jp")
  let a_t := _get_field src_note (cfg.answer_target_field.getD "Back_jp")
  let new0 : Note := ⟨0, src_note.fields.map (fun p => (p.1, "")), [], 0⟩
  let new1 := _set_field new0 (cfg.question_source_field.getD "Front") q_t
  let new2 := _set_field new1 (cfg.answer_source_field.getD "Back") a_t
  let tagc := effTagCopiedAdd cfg
  let new3 := if tagc = "" then new2 else { new2 with tags := new2.tags ++ [tagc] }
  { new3 with tags := new3.tags ++ [_marker_tag_for_nid src_note.id cfg] }

/-- `create_translated_copy_from_note` (`__init__.py` lines 169-228).
Returns `((ok, message), collection after the call)`.  The exception branches
of the source (note-construction or insertion failure) cannot arise in the
model, whose host collaborators are total. -/
def create_translated_copy_from_note (src_note : Note) (src_card : Card)
    (cfg : CopyCfg) (col : Col) : (Bool × String) × Col :=
  if src_note.id = 0 then
    ((false, "元ノートIDが取得できませんでした。"), col)
  else if _already_copied src_note.id cfg col then
    ((false, "既にコピー済み（重複防止）"), col)
  else
    let q_t := _get_field src_note (cfg.question_target_field.getD "Front_jp")
    let a_t := _get_field src_note (cfg.answer_target_field.getD "Back_jp")
    if cfg.copy_only_if_translated.getD true ∧ q_t = "" ∧ a_t = "" then
      ((false, "翻訳フィールドが空のためスキップ"), col)
    else
      let r := _resolve_dest_deck_id src_card cfg col
      ((true, "コピー作成完了"), add_note (mkCopyNote src_note cfg) r.1 r.2)

/-- The configuration dictionary read by `translate.py` / `config.py`
(provider choice, keys, models, prompt, languages, field names).  `none`
models an absent key. -/
structure TConfig where
  provider : Option String
  openai_api_key : Option String
  gemini_api_key : Option String
  openai_model : Option String
  gemini_model : Option String
  prompt : Option String
  source_language : Option String
  target_language : Option String
  source_field : Option String
  target_field : Option String
deriving Repr, DecidableEq

/-- The process environment as `get_api_key` sees it: the values of
`OPENAI_API_KEY` and `GEMINI_API_KEY` (`none` when unset). -/
structure Env where
  openai : Option String
  gemini : Option String
deriving Repr, DecidableEq

/-- Python's `a or b` on an optional string: an absent or empty left operand
is falsy and yields the right operand. -/
def pyOrOpt (a b : Option String) : Option String :=
  match a with
  | some s => if s = "" then b else some s
  | none => b

/-- `get_api_key` (`config.py` lines 28-33): the configured key with the
environment variable as falsy fallback; `none` for any other provider. -/
def get_api_key (provider : String) (cfg : TConfig) (env : Env) : Option String :=
  if provider = "openai" then pyOrOpt cfg.openai_api_key env.openai
  else if provider = "gemini" then pyOrOpt cfg.gemini_api_key env.gemini
  else none

/-- `IMAGE_TAG_INSTRUCTION` (`translate.py` lines 10-12). -/
def IMAGE_TAG_INSTRUCTION : String :=
  "Do not translate or move any <img> tags; keep them exactly as-is and in place."

/-- One fully assembled provider request, as `translate_openai` /
`translate_gemini` (`providers.py`) would serialize it. -/
structure ProviderReq where
  provider : String
  api_key : String
  model : String
  prompt : String
  source_language : String
  target_language : String
  text : String
deriving Repr, DecidableEq

/-- `translate_text` (`translate.py` lines 15-47) over an HTTP oracle `net`
standing for the provider's response text; the second component counts the
HTTP requests issued.  A missing (absent or empty) key for the selected
provider raises the configuration error with zero requests; the provider
functions (`providers.py` lines 41 and 66) return the response text trimmed.
The final unsupported-provider error is kept from the source even though
`get_api_key` already returns `none` for unknown providers, making it
unreachable there too. -/
def translate_text (text : String) (cfg : TConfig) (env : Env)
    (net : ProviderReq → String) : Except String String × Nat :=
  let provider := cfg.provider.getD "openai"
  let api_key := get_api_key provider cfg env
  if api_key.getD "" = "" then
    (.error ("Missing API key for provider: " ++ provider), 0)
  else
    let key := api_key.getD ""
    let prompt := cfg.prompt.getD "Translate the following text." ++ "\n\n" ++
      IMAGE_TAG_INSTRUCTION
    let sl := cfg.source_language.getD ""
    let tl := cfg.target_language.getD ""
    if provider = "openai" then
      (.ok (pyStrip (net ⟨provider, key, cfg.openai_model.getD "gpt-4o-mini",
        prompt, sl, tl, text⟩)), 1)
    else if provider = "gemini" then
      (.ok (pyStrip (net ⟨provider, key, cfg.gemini_model.getD "gemini-1.5-flash",
        prompt, sl, tl, text⟩)), 1)
    else
      (.error ("Unsupported provider: " ++ provider), 0)

/-- One `if text: clone[field] = translate_text(text, config)` statement of
`translate_note_fields` (`translate.py` lines 67-70), with the error and the
request count of the embedded call threaded through. -/
def translateFieldIfNonempty (n : Note) (fieldName text : String) (cfg : TConfig)
    (env : Env) (net : ProviderReq → String) : Except String Note × Nat :=
  if text = "" then (.ok n, 0)
  else
    match translate_text text cfg env net with
    | (.ok t, c) => (.ok (writeField n fieldName t), c)
    | (.error e, c) => (.error e, c)

/-- `translate_note_fields` (`translate.py` lines 50-74).  `Except.error`
models an exception escaping the function (the collection is unchanged on
those paths, since insertion is the last statement); on `Except.ok` the flag
says whether a new note was created and the collection is returned updated.
The clone copies every field of the source verbatim and starts with no tags;
insertion always targets the deck literally named "Default". -/
def translate_note_fields (note : Note) (cfg : TConfig) (env : Env)
    (net : ProviderReq → String) (col : Col) : Except String (Bool × Col) × Nat :=
  let source_field := cfg.source_field.getD "Front"
  let target_field := cfg.target_field.getD "Back"
  if hasField note source_field = false then
    (.error ("Source field not found: " ++ source_field), 0)
  else if hasField note target_field = false then
    (.error ("Target field not found: " ++ target_field), 0)
  else
    let source_text := pyStrip (readField note source_field)
    let target_text := pyStrip (readField note target_field)
    if source_text = "" ∧ target_text = "" then (.ok (false, col), 0)
    else
      let new_note : Note := ⟨0, note.fields, [], 0⟩
      match translateFieldIfNonempty new_note source_field source_text cfg env net with
      | (.error e, c1) => (.error e, c1)
      | (.ok n1, c1) =>
        match translateFieldIfNonempty n1 target_field target_text cfg env net with
        | (.error e, c2) => (.error e, c1 + c2)
        | (.ok n2, c2) =>
          let r := decks_id "Default" col
          (.ok (true, add_note n2 r.1 r.2), c1 + c2)

/-- The collection after a `translate_note_fields` call: the returned one on
success, the unchanged input one when an exception escaped. -/
def colAfter (r : Except String (Bool × Col) × Nat) (col : Col) : Col :=
  match r.1 with
  | .ok p => p.2
  | .error _ => col

/-- The translated string of a successful `translate_text` result. -/
def okValue (r : Except String String × Nat) : String :=
  match r.1 with
  | .ok s => s
  | .error _ => ""

/-- The configuration-side API key for a provider (used to state the
fallback property of `get_api_key`). -/
def configKeyOf (provider : String) (cfg : TConfig) : Option String :=
  if provider = "openai" then cfg.openai_api_key
  else if provider = "gemini" then cfg.gemini_api_key
  else none

/-- The environment-side API key for a provider. -/
def envKeyOf (provider : String) (env : Env) : Option String :=
  if provider = "openai" then env.openai
  else if provider = "gemini" then env.gemini
  else none

/-- Concrete fixture: the `DEFAULT_CONFIG` of `__init__.py`. -/
def cfgDefaults : CopyCfg :=
  ⟨some "Front", some "Front_jp", some "Back", some "Back_jp",
   some "same_deck", some "Default", some true, some true,
   some "AI_TranslatedCopy", some "srcnid_"⟩

/-- Concrete fixture: the worked example of the spec (section 8), a source
note with one translated target field. -/
def noteW : Note :=
  ⟨7, [("Front", "犬"), ("Front_jp", "いぬ"), ("Back", "dog"), ("Back_jp", "")], [], 0⟩

/-- Concrete fixture: a note already carrying the "copied" tag and its own
tracking tag. -/
def noteCopiedW : Note :=
  ⟨7, [("Front", "いぬ"), ("Front_jp", ""), ("Back", ""), ("Back_jp", "")],
   ["AI_TranslatedCopy", "srcnid_7"], 2⟩

/-- Concrete fixture: a note whose target-language fields are both empty
after trimming. -/
def noteEmptyW : Note :=
  ⟨9, [("Front", "犬"), ("Front_jp", ""), ("Back", "dog"), ("Back_jp", "  ")], [], 0⟩

/-- Concrete fixture: a note whose source and target fields are both empty
after trimming. -/
def noteBothEmptyW : Note :=
  ⟨3, [("Front", " "), ("Back", "")], [], 0⟩

/-- Concrete fixture: a representative source card in deck 3. -/
def cardW : Card := ⟨3⟩

/-- Concrete fixture: a collection holding only the example source note. -/
def colW : Col := ⟨[noteW], [("Default", 1)], 2, 100⟩

/-- Concrete fixture: a collection holding an already-copied note. -/
def colC1 : Col := ⟨[noteCopiedW], [("Default", 1)], 2, 100⟩

/-- Concrete fixture: translation configuration selecting gemini with no key
anywhere. -/
def tcfgNoKey : TConfig :=
  ⟨some "gemini", none, none, none, none, none, none, none, some "Front", some "Back"⟩

/-- Concrete fixture: translation configuration selecting gemini with a
configured key. -/
def tcfgKey : TConfig :=
  ⟨some "gemini", none, some "k-123", none, none, none, none, none,
   some "Front", some "Back"⟩

/-- Concrete fixture: gemini selected, configured key empty (falsy), so the
environment must be consulted. -/
def tcfgEnvFall : TConfig :=
  ⟨some "gemini", none, some "", none, none, none, none, none,
   some "Front", some "Back"⟩

/-- Concrete fixture: translation configuration naming a field the note does
not have. -/
def tcfgBadField : TConfig :=
  ⟨some "gemini", none, some "k-123", none, none, none, none, none,
   some "Nope", some "Back"⟩

/-- Concrete fixture: an empty environment. -/
def envNone : Env := ⟨none, none⟩

/-- Concrete fixture: an environment carrying only a gemini key. -/
def envG : Env := ⟨none, some "sk-env"⟩

/-- Concrete fixture: a deterministic provider oracle. -/
def netW : ProviderReq → String := fun r => "訳:" ++ r.text

-- ----------------------------------------------------------------------
-- Helper lemmas
-- ----------------------------------------------------------------------

lemma set_field_tags (n : Note) (a b : String) : (_set_field n a b).tags = n.tags := by
  unfold _set_field
  split <;> rfl

lemma writeField_tags (n : Note) (a b : String) : (writeField n a b).tags = n.tags := rfl

lemma decks_id_notes (name : String) (col : Col) :
    ((decks_id name col).2).notes = col.notes := by
  unfold decks_id
  split <;> rfl

lemma resolve_dest_notes (c : Card) (cfg : CopyCfg) (col : Col) :
    ((_resolve_dest_deck_id c cfg col).2).notes = col.notes := by
  unfold _resolve_dest_deck_id
  split
  · rfl
  · exact decks_id_notes _ _

lemma find_notes_both_nonempty (t m : String) (col : Col) (n : Note)
    (hmem : n ∈ col.notes) (ht : n.tags.contains t = true)
    (hm : n.tags.contains m = true) :
    (find_notes_both t m col).isEmpty = false := by
  have ht' : t ∈ n.tags := by simpa using ht
  have hm' : m ∈ n.tags := by simpa using hm
  have h1 : n ∈ col.notes.filter (fun n => n.tags.contains t && n.tags.contains m) :=
    List.mem_filter.mpr ⟨hmem, by simp [ht', hm']⟩
  have h2 : n.id ∈ find_notes_both t m col := List.mem_map_of_mem _ h1
  cases hf : find_notes_both t m col with
  | nil => rw [hf] at h2; cases h2
  | cons a l => rfl

lemma lookupF_writeField (n : Note) (name v fn : String) :
    lookupF (writeField n name v) fn =
      if fn = name then (lookupF n fn).map (fun _ => v) else lookupF n fn := by
  unfold lookupF writeField
  simp only [List.find?_map]
  have hpred : ((fun p : String × String => p.1 == fn) ∘
      (fun p : String × String => if p.1 == name then (p.1, v) else p)) =
      fun p : String × String => p.1 == fn := by
    funext p
    by_cases h : p.1 = name <;> simp [h]
  rw [hpred]
  cases hfind : n.fields.find? (fun p => p.1 == fn) with
  | none => simp
  | some p0 =>
    have hp0 := List.find?_some hfind
    have hp0' : p0.1 = fn := by simpa using hp0
    by_cases h2 : fn = name
    · subst h2
      simp [Option.map, hp0']
    · have : (p0.1 == name) = false := by
        simp [hp0']
        exact h2
      simp [h2, this, Option.map]

lemma mkCopyNote_tags (s : Note) (cfg : CopyCfg) :
    (mkCopyNote s cfg).tags =
      (if effTagCopiedAdd cfg = "" then [] else [effTagCopiedAdd cfg])
        ++ [_marker_tag_for_nid s.id cfg] := by
  unfold mkCopyNote
  by_cases h : effTagCopiedAdd cfg = "" <;>
    simp [h, set_field_tags]

lemma translate_text_ok (t : String) (cfg : TConfig) (env : Env)
    (net : ProviderReq → String)
    (hp : cfg.provider.getD "openai" = "openai" ∨ cfg.provider.getD "openai" = "gemini")
    (hk : (get_api_key (cfg.provider.getD "openai") cfg env).getD "" ≠ "") :
    ∃ s, translate_text t cfg env net = (.ok s, 1) := by
  simp only [translate_text]
  rw [if_neg hk]
  rcases hp with hp | hp <;> rw [hp] <;> simp

lemma translate_text_ok_eq (t : String) (cfg : TConfig) (env : Env)
    (net : ProviderReq → String)
    (hp : cfg.provider.getD "openai" = "openai" ∨ cfg.provider.getD "openai" = "gemini")
    (hk : (get_api_key (cfg.provider.getD "openai") cfg env).getD "" ≠ "") :
    translate_text t cfg env net = (.ok (okValue (translate_text t cfg env net)), 1) := by
  obtain ⟨s, hs⟩ := translate_text_ok t cfg env net hp hk
  rw [hs]
  rfl

lemma translateFieldIfNonempty_ok (n : Note) (fieldName text : String)
    (cfg : TConfig) (env : Env) (net : ProviderReq → String)
    (hp : cfg.provider.getD "openai" = "openai" ∨ cfg.provider.getD "openai" = "gemini")
    (hk : (get_api_key (cfg.provider.getD "openai") cfg env).getD "" ≠ "") :
    translateFieldIfNonempty n fieldName text cfg env net =
      (.ok (if text = "" then n
            else writeField n fieldName (okValue (translate_text text cfg env net))),
       if text = "" then 0 else 1) := by
  unfold translateFieldIfNonempty
  by_cases h : text = ""
  · simp [h]
  · rw [if_neg h, if_neg h, if_neg h, translate_text_ok_eq text cfg env net hp hk]
    rfl

lemma pyOrOpt_falsy (a b : Option String) :
    ((pyOrOpt a b).getD "" = "") ↔ (a.getD "" = "" ∧ b.getD "" = "") := by
  cases a with
  | none => simp [pyOrOpt]
  | some s => by_cases h : s = "" <;> simp [pyOrOpt, h]

-- ----------------------------------------------------------------------
-- Claim theorems
-- ----------------------------------------------------------------------

/-- C4: destination-deck resolution is a pure function of the tuple (mode,
source card's deck id, specified deck name): `same_deck` yields the source
card's current deck id, `default` yields the id of the deck named "Default",
and `specified` yields the id of the deck with the configured name; for the
latter two the deck is looked up by name and created only when no deck with
that name exists. -/
theorem resolve_dest_deck_spec (card : Card) (cfg : CopyCfg) (col : Col)
    (hdid : 0 < card.did) :
    (effMode cfg = "same_deck" → _resolve_dest_deck_id card cfg col = (card.did, col))
    ∧ (effMode cfg = "default" → _resolve_dest_deck_id card cfg col = decks_id "Default" col)
    ∧ (effMode cfg = "specified" →
        _resolve_dest_deck_id card cfg col = decks_id (effDeckName cfg) col)
    ∧ (∀ name i, deckIdNamed col name = some i → decks_id name col = (i, col))
    ∧ (∀ name, deckIdNamed col name = none →
        deckIdNamed (decks_id name col).2 name = some (decks_id name col).1) := by
  refine ⟨?_, ?_, ?_, ?_, ?_⟩
  · intro h
    unfold _resolve_dest_deck_id
    rw [if_pos h, if_neg (Nat.pos_iff_ne_zero.mp hdid)]
  · intro h
    unfold _resolve_dest_deck_id
    rw [h]
    simp
  · intro h
    unfold _resolve_dest_deck_id
    rw [h]
    simp
  · intro name i h
    unfold deckIdNamed at h
    unfold decks_id
    cases hf : col.decks.find? (fun d => d.1 == name) with
    | none => rw [hf] at h; simp at h
    | some d =>
      rw [hf] at h
      simp only [Option.map_some', Option.some.injEq] at h
      simp [h]
  · intro name h
    unfold deckIdNamed at h ⊢
    unfold decks_id
    have hf : col.decks.find? (fun d => d.1 == name) = none := by
      cases hf : col.decks.find? (fun d => d.1 == name) with
      | none => rfl
      | some d => rw [hf] at h; simp at h
    rw [hf]
    simp [List.find?_append, hf]

/-- C4 witness: with mode `same_deck` and a source card in deck 3, resolution
returns deck 3 and leaves the collection unchanged. -/
theorem resolve_dest_deck_spec_w :
    _resolve_dest_deck_id cardW cfgDefaults colW = (3, colW) :=
  (resolve_dest_deck_spec cardW cfgDefaults colW (by decide)).1 (by decide)

/-- C1: a source note that itself carries both the configured "copied" tag
and its own tracking tag makes the dedupe query non-empty, so with the skip
flag enabled `create_translated_copy_from_note` returns failure with the
"already copied" message and leaves the collection unchanged, regardless of
the note's field content. -/
theorem create_copy_already_copied (src_note : Note) (src_card : Card)
    (cfg : CopyCfg) (col : Col)
    (hid : src_note.id ≠ 0)
    (hmem : src_note ∈ col.notes)
    (hskip : cfg.copy_skip_if_already_copied.getD true = true)
    (htag : src_note.tags.contains (effTagCopiedQ cfg) = true)
    (hmark : src_note.tags.contains (_marker_tag_for_nid src_note.id cfg) = true) :
    create_translated_copy_from_note src_note src_card cfg col
      = ((false, "既にコピー済み（重複防止）"), col) := by
  have hac : _already_copied src_note.id cfg col = true := by
    unfold _already_copied
    rw [if_pos hskip,
      find_notes_both_nonempty (effTagCopiedQ cfg) (_marker_tag_for_nid src_note.id cfg)
        col src_note hmem htag hmark]
    rfl
  unfold create_translated_copy_from_note
  rw [if_neg hid, if_pos hac]

/-- C1 witness: a note tagged `AI_TranslatedCopy` and `srcnid_7` is rejected
as already copied. -/
theorem create_copy_already_copied_w :
    create_translated_copy_from_note noteCopiedW cardW cfgDefaults colC1
      = ((false, "既にコピー済み（重複防止）"), colC1) :=
  create_copy_already_copied noteCopiedW cardW cfgDefaults colC1
    (by decide) (by decide) (by decide) (by decide) (by decide)

/-- C3: when the dedupe check does not fire, the configured question-target
and answer-target fields are both empty after trimming, and the "only if
translated" flag is enabled, `create_translated_copy_from_note` returns
failure with the skip message and the collection is unchanged. -/
theorem create_copy_skip_untranslated (src_note : Note) (src_card : Card)
    (cfg : CopyCfg) (col : Col)
    (hid : src_note.id ≠ 0)
    (hac : _already_copied src_note.id cfg col = false)
    (honly : cfg.copy_only_if_translated.getD true = true)
    (hq : _get_field src_note (cfg.question_target_field.getD "Front_jp") = "")
    (ha : _get_field src_note (cfg.answer_target_field.getD "Back_jp") = "") :
    create_translated_copy_from_note src_note src_card cfg col
      = ((false, "翻訳フィールドが空のためスキップ"), col) := by
  simp only [create_translated_copy_from_note]
  rw [if_neg hid, if_neg (by simp [hac]), if_pos ⟨honly, hq, ha⟩]

/-- C3 witness: a note whose `Front_jp` is empty and whose `Back_jp` is
whitespace only is skipped without touching the collection. -/
theorem create_copy_skip_untranslated_w :
    create_translated_copy_from_note noteEmptyW cardW cfgDefaults colW
      = ((false, "翻訳フィールドが空のためスキップ"), colW) :=
  create_copy_skip_untranslated noteEmptyW cardW cfgDefaults colW
    (by decide) (by decide) (by decide) (by decide) (by decide)

/-- C5: when the selected provider has no usable API key (absent or empty in
configuration and environment alike), `translate_text` returns the
configuration error and issues zero HTTP requests. -/
theorem translate_text_missing_key (text : String) (cfg : TConfig) (env : Env)
    (net : ProviderReq → String)
    (hkey : (get_api_key (cfg.provider.getD "openai") cfg env).getD "" = "") :
    translate_text text cfg env net
      = (.error ("Missing API key for provider: " ++ cfg.provider.getD "openai"), 0) := by
  simp only [translate_text]
  rw [if_pos hkey]

/-- C5 witness: provider gemini with no key configured anywhere fails before
any request. -/
theorem translate_text_missing_key_w :
    translate_text "hello" tcfgNoKey envNone netW
      = (.error ("Missing API key for provider: " ++ tcfgNoKey.provider.getD "openai"), 0) :=
  translate_text_missing_key "hello" tcfgNoKey envNone netW (by decide)

/-- C6: when both configured fields exist on the note and both values are
empty after trimming, `translate_note_fields` returns false, leaves the
collection unchanged, and issues zero provider requests. -/
theorem translate_note_fields_both_empty (note : Note) (cfg : TConfig) (env : Env)
    (net : ProviderReq → String) (col : Col)
    (hs : hasField note (cfg.source_field.getD "Front") = true)
    (ht : hasField note (cfg.target_field.getD "Back") = true)
    (hse : pyStrip (readField note (cfg.source_field.getD "Front")) = "")
    (hte : pyStrip (readField note (cfg.target_field.getD "Back")) = "") :
    translate_note_fields note cfg env net col = (.ok (false, col), 0) := by
  simp only [translate_note_fields]
  rw [if_neg (by simp [hs]), if_neg (by simp [ht]), if_pos ⟨hse, hte⟩]

/-- C6 witness: a note whose `Front` is whitespace and whose `Back` is empty
is left alone with zero provider calls. -/
theorem translate_note_fields_both_empty_w :
    translate_note_fields noteBothEmptyW tcfgKey envNone netW colW = (.ok (false, colW), 0) :=
  translate_note_fields_both_empty noteBothEmptyW tcfgKey envNone netW colW
    (by decide) (by decide) (by decide) (by decide)

/-- C8: `translate_note_fields` never mutates the collection's existing
notes — in particular the source note: on every path the resulting
collection's note list is the input list with at most one appended note
(none on an error or nothing-to-do path), so every pre-existing note,
fields and tags included, is present unchanged. -/
theorem translate_note_fields_frame (note : Note) (cfg : TConfig) (env : Env)
    (net : ProviderReq → String) (col : Col) :
    ∃ extra, (colAfter (translate_note_fields note cfg env net col) col).notes
        = col.notes ++ extra ∧ extra.length ≤ 1 := by
  simp only [translate_note_fields]
  split
  · exact ⟨[], by simp [colAfter]⟩
  · split
    · exact ⟨[], by simp [colAfter]⟩
    · split
      · exact ⟨[], by simp [colAfter]⟩
      · split
        · exact ⟨[], by simp [colAfter]⟩
        · split
          · exact ⟨[], by simp [colAfter]⟩
          · rename_i x1 n1 c1 heq1 x2 n2 c2 heq2
            refine ⟨[Note.mk (decks_id "Default" col).2.nextNoteId n2.fields n2.tags
              (decks_id "Default" col).1], ?_, by simp⟩
            simp [colAfter, add_note, decks_id_notes]

/-- C2: with dedupe enabled, a consistent non-empty "copied" tag, no prior
copy recorded, and translated content present (or the only-if-translated flag
off), running `create_translated_copy_from_note` twice creates exactly one
note: the first call succeeds and appends one note carrying the "copied" tag
and the tracking tag, and the second call fails with the already-copied
message leaving the collection unchanged. -/
theorem create_copy_idempotent (src_note : Note) (src_card : Card) (cfg : CopyCfg)
    (col : Col)
    (hid : src_note.id ≠ 0)
    (hskip : cfg.copy_skip_if_already_copied.getD true = true)
    (htagc : effTagCopiedAdd cfg = effTagCopiedQ cfg)
    (htagne : effTagCopiedQ cfg ≠ "")
    (hfresh : find_notes_both (effTagCopiedQ cfg) (_marker_tag_for_nid src_note.id cfg) col = [])
    (htrans : ¬(cfg.copy_only_if_translated.getD true ∧
        _get_field src_note (cfg.question_target_field.getD "Front_jp") = "" ∧
        _get_field src_note (cfg.answer_target_field.getD "Back_jp") = "")) :
    (create_translated_copy_from_note src_note src_card cfg col).1 = (true, "コピー作成完了")
    ∧ (∃ nn, (create_translated_copy_from_note src_note src_card cfg col).2.notes
          = col.notes ++ [nn]
        ∧ nn.tags.contains (effTagCopiedQ cfg) = true
        ∧ nn.tags.contains (_marker_tag_for_nid src_note.id cfg) = true)
    ∧ create_translated_copy_from_note src_note src_card cfg
          (create_translated_copy_from_note src_note src_card cfg col).2
        = ((false, "既にコピー済み（重複防止）"),
           (create_translated_copy_from_note src_note src_card cfg col).2) := by
  have hac1 : _already_copied src_note.id cfg col = false := by
    unfold _already_copied
    rw [if_pos hskip, hfresh]
    rfl
  have hstep : create_translated_copy_from_note src_note src_card cfg col
      = ((true, "コピー作成完了"),
         add_note (mkCopyNote src_note cfg)
           (_resolve_dest_deck_id src_card cfg col).1
           (_resolve_dest_deck_id src_card cfg col).2) := by
    simp only [create_translated_copy_from_note]
    rw [if_neg hid, if_neg (by simp [hac1]), if_neg htrans]
  have hsecond : ∀ c2 : Col, _already_copied src_note.id cfg c2 = true →
      create_translated_copy_from_note src_note src_card cfg c2
        = ((false, "既にコピー済み（重複防止）"), c2) := by
    intro c2 h
    unfold create_translated_copy_from_note
    rw [if_neg hid, if_pos h]
  have htags : ({ mkCopyNote src_note cfg with
      id := (_resolve_dest_deck_id src_card cfg col).2.nextNoteId,
      did := (_resolve_dest_deck_id src_card cfg col).1 } : Note).tags
      = [effTagCopiedQ cfg, _marker_tag_for_nid src_note.id cfg] := by
    show (mkCopyNote src_note cfg).tags = _
    rw [mkCopyNote_tags, htagc, if_neg htagne]
    rfl
  have hnotes : (create_translated_copy_from_note src_note src_card cfg col).2.notes
      = col.notes ++ [{ mkCopyNote src_note cfg with
          id := (_resolve_dest_deck_id src_card cfg col).2.nextNoteId,
          did := (_resolve_dest_deck_id src_card cfg col).1 }] := by
    rw [hstep]
    simp only [add_note, resolve_dest_notes]
  have hcontains1 : ({ mkCopyNote src_note cfg with
      id := (_resolve_dest_deck_id src_card cfg col).2.nextNoteId,
      did := (_resolve_dest_deck_id src_card cfg col).1 } : Note).tags.contains
        (effTagCopiedQ cfg) = true := by
    rw [htags]; simp
  have hcontains2 : ({ mkCopyNote src_note cfg with
      id := (_resolve_dest_deck_id src_card cfg col).2.nextNoteId,
      did := (_resolve_dest_deck_id src_card cfg col).1 } : Note).tags.contains
        (_marker_tag_for_nid src_note.id cfg) = true := by
    rw [htags]; simp
  have hmem : ({ mkCopyNote src_note cfg with
      id := (_resolve_dest_deck_id src_card cfg col).2.nextNoteId,
      did := (_resolve_dest_deck_id src_card cfg col).1 } : Note)
      ∈ (create_translated_copy_from_note src_note src_card cfg col).2.notes := by
    rw [hnotes]
    exact List.mem_append_right _ (List.mem_cons_self _ _)
  have hac2 : _already_copied src_note.id cfg
      (create_translated_copy_from_note src_note src_card cfg col).2 = true := by
    unfold _already_copied
    rw [if_pos hskip,
      find_notes_both_nonempty _ _ _ _ hmem hcontains1 hcontains2]
    rfl
  exact ⟨by rw [hstep], ⟨_, hnotes, hcontains1, hcontains2⟩,
    hsecond _ hac2⟩

/-- C2 witness: on the spec's worked example the first run creates the tagged
copy and the second run is rejected, leaving exactly one new note. -/
theorem create_copy_idempotent_w :
    (create_translated_copy_from_note noteW cardW cfgDefaults colW).1
        = (true, "コピー作成完了")
    ∧ (∃ nn, (create_translated_copy_from_note noteW cardW cfgDefaults colW).2.notes
          = colW.notes ++ [nn]
        ∧ nn.tags.contains (effTagCopiedQ cfgDefaults) = true
        ∧ nn.tags.contains (_marker_tag_for_nid noteW.id cfgDefaults) = true)
    ∧ create_translated_copy_from_note noteW cardW cfgDefaults
          (create_translated_copy_from_note noteW cardW cfgDefaults colW).2
        = ((false, "既にコピー済み（重複防止）"),
           (create_translated_copy_from_note noteW cardW cfgDefaults colW).2) :=
  create_copy_idempotent noteW cardW cfgDefaults colW
    (by decide) (by decide) (by decide) (by decide) (by decide) (by decide)

/-- C7: when at least one configured field is non-empty after trimming (and
the provider is usable), `translate_note_fields` builds a clone of the note
(no tags) in which exactly the non-empty field(s) are overwritten with the
provider's translation result while a trimmed-empty field keeps its original
(trimmed-empty) value, inserts the clone into the deck literally named
"Default" — the insertion target does not depend on any destination-policy
option, none of which even exist in this workflow's configuration — and
returns true, with one provider request per non-empty field. -/
theorem translate_note_fields_creates_clone (note : Note) (cfg : TConfig) (env : Env)
    (net : ProviderReq → String) (col : Col)
    (hs : hasField note (cfg.source_field.getD "Front") = true)
    (ht : hasField note (cfg.target_field.getD "Back") = true)
    (hdist : cfg.source_field.getD "Front" ≠ cfg.target_field.getD "Back")
    (hne : ¬(pyStrip (readField note (cfg.source_field.getD "Front")) = ""
        ∧ pyStrip (readField note (cfg.target_field.getD "Back")) = ""))
    (hp : cfg.provider.getD "openai" = "openai" ∨ cfg.provider.getD "openai" = "gemini")
    (hk : (get_api_key (cfg.provider.getD "openai") cfg env).getD "" ≠ "") :
    ∃ n2,
      translate_note_fields note cfg env net col
        = (.ok (true, add_note n2 (decks_id "Default" col).1 (decks_id "Default" col).2),
           (if pyStrip (readField note (cfg.source_field.getD "Front")) = "" then 0 else 1)
             + (if pyStrip (readField note (cfg.target_field.getD "Back")) = "" then 0 else 1))
      ∧ n2.tags = []
      ∧ ∀ fn, lookupF n2 fn =
          if fn = cfg.source_field.getD "Front"
              ∧ pyStrip (readField note (cfg.source_field.getD "Front")) ≠ "" then
            (lookupF note fn).map (fun _ =>
              okValue (translate_text
                (pyStrip (readField note (cfg.source_field.getD "Front"))) cfg env net))
          else if fn = cfg.target_field.getD "Back"
              ∧ pyStrip (readField note (cfg.target_field.getD "Back")) ≠ "" then
            (lookupF note fn).map (fun _ =>
              okValue (translate_text
                (pyStrip (readField note (cfg.target_field.getD "Back"))) cfg env net))
          else lookupF note fn := by
  have hTF : ∀ (n : Note) (f t : String), translateFieldIfNonempty n f t cfg env net
      = (.ok (if t = "" then n else writeField n f (okValue (translate_text t cfg env net))),
         if t = "" then 0 else 1) :=
    fun n f t => translateFieldIfNonempty_ok n f t cfg env net hp hk
  by_cases hsE : pyStrip (readField note (cfg.source_field.getD "Front")) = ""
  · have htE : ¬ pyStrip (readField note (cfg.target_field.getD "Back")) = "" :=
      fun h => hne ⟨hsE, h⟩
    refine ⟨writeField ⟨0, note.fields, [], 0⟩ (cfg.target_field.getD "Back")
      (okValue (translate_text
        (pyStrip (readField note (cfg.target_field.getD "Back"))) cfg env net)),
      ?_, rfl, ?_⟩
    · simp only [translate_note_fields]
      rw [if_neg (by simp [hs]), if_neg (by simp [ht]), if_neg hne]
      simp only [hTF]
      simp [hsE, htE]
    · intro fn
      simp only [lookupF_writeField]
      by_cases h1 : fn = cfg.target_field.getD "Back"
      · simp [h1, hsE, htE, lookupF]
      · simp [h1, hsE, lookupF]
  · by_cases htE : pyStrip (readField note (cfg.target_field.getD "Back")) = ""
    · refine ⟨writeField ⟨0, note.fields, [], 0⟩ (cfg.source_field.getD "Front")
        (okValue (translate_text
          (pyStrip (readField note (cfg.source_field.getD "Front"))) cfg env net)),
        ?_, rfl, ?_⟩
      · simp only [translate_note_fields]
        rw [if_neg (by simp [hs]), if_neg (by simp [ht]), if_neg hne]
        simp only [hTF]
        simp [hsE, htE]
      · intro fn
        simp only [lookupF_writeField]
        by_cases h1 : fn = cfg.source_field.getD "Front"
        · have h2 : ¬ fn = cfg.target_field.getD "Back" := by
            rw [h1]; exact hdist
          simp [h1, h2, hsE, htE, lookupF]
        · simp [h1, hsE, htE, lookupF]
    · refine ⟨writeField (writeField ⟨0, note.fields, [], 0⟩
          (cfg.source_field.getD "Front")
          (okValue (translate_text
            (pyStrip (readField note (cfg.source_field.getD "Front"))) cfg env net)))
        (cfg.target_field.getD "Back")
        (okValue (translate_text
          (pyStrip (readField note (cfg.target_field.getD "Back"))) cfg env net)),
        ?_, rfl, ?_⟩
      · simp only [translate_note_fields]
        rw [if_neg (by simp [hs]), if_neg (by simp [ht]), if_neg hne]
        simp only [hTF]
        simp [hsE, htE]
      · intro fn
        simp only [lookupF_writeField]
        by_cases h1 : fn = cfg.target_field.getD "Back"
        · subst h1
          have h2 : ¬ (cfg.target_field.getD "Back" = cfg.source_field.getD "Front") :=
            fun h => hdist h.symm
          simp [h2, hsE, htE, lookupF]
        · by_cases h2 : fn = cfg.source_field.getD "Front"
          · subst h2
            simp [hdist, hsE, htE, lookupF]
          · simp [h1, h2, lookupF]

/-- C7 witness: on the example note (both fields non-empty) the workflow
issues exactly two provider requests. -/
theorem translate_note_fields_creates_clone_w :
    (translate_note_fields noteW tcfgKey envNone netW colW).2 = 2 := by
  obtain ⟨n2, h1, h2, h3⟩ := translate_note_fields_creates_clone noteW tcfgKey
    envNone netW colW (by decide) (by decide) (by decide) (by decide)
    (Or.inr (by decide)) (by decide)
  rw [h1]
  show (if pyStrip (readField noteW (tcfgKey.source_field.getD "Front")) = "" then 0 else 1)
      + (if pyStrip (readField noteW (tcfgKey.target_field.getD "Back")) = "" then 0 else 1) = 2
  decide

/-- C9: `get_api_key` falls back to the environment variable exactly when the
configured key is absent or empty, and `translate_text` reports the
missing-key configuration error precisely when both the configuration and the
environment lack a (non-empty) key for the selected provider. -/
theorem get_api_key_env_fallback (cfg : TConfig) (env : Env) (text : String)
    (net : ProviderReq → String)
    (hp : cfg.provider.getD "openai" = "openai" ∨ cfg.provider.getD "openai" = "gemini") :
    ((configKeyOf (cfg.provider.getD "openai") cfg).getD "" = "" →
        get_api_key (cfg.provider.getD "openai") cfg env
          = envKeyOf (cfg.provider.getD "openai") env)
    ∧ ((translate_text text cfg env net).1
          = .error ("Missing API key for provider: " ++ cfg.provider.getD "openai")
        ↔ (configKeyOf (cfg.provider.getD "openai") cfg).getD "" = ""
          ∧ (envKeyOf (cfg.provider.getD "openai") env).getD "" = "") := by
  have hkey : get_api_key (cfg.provider.getD "openai") cfg env
      = pyOrOpt (configKeyOf (cfg.provider.getD "openai") cfg)
          (envKeyOf (cfg.provider.getD "openai") env) := by
    rcases hp with h | h <;> rw [h] <;> simp [get_api_key, configKeyOf, envKeyOf]
  constructor
  · intro hfa
    rw [hkey]
    cases hca : configKeyOf (cfg.provider.getD "openai") cfg with
    | none => simp [pyOrOpt]
    | some s =>
      rw [hca] at hfa
      simp only [Option.getD_some] at hfa
      simp [pyOrOpt, hfa]
  · constructor
    · intro h
      by_contra hcon
      rw [← pyOrOpt_falsy, ← hkey] at hcon
      obtain ⟨s, hok⟩ := translate_text_ok text cfg env net hp hcon
      rw [hok] at h
      simp at h
    · rintro ⟨h1, h2⟩
      have hfa : (get_api_key (cfg.provider.getD "openai") cfg env).getD "" = "" := by
        rw [hkey, pyOrOpt_falsy]
        exact ⟨h1, h2⟩
      simp only [translate_text]
      rw [if_pos hfa]

/-- C9 witness: with an empty configured gemini key and `GEMINI_API_KEY` set,
the environment key is used. -/
theorem get_api_key_env_fallback_w :
    get_api_key (tcfgEnvFall.provider.getD "openai") tcfgEnvFall envG
      = envKeyOf (tcfgEnvFall.provider.getD "openai") envG :=
  (get_api_key_env_fallback tcfgEnvFall envG "t" netW (Or.inr (by decide))).1 (by decide)

/-- C10: the copy workflow's field access is total and silent — reading an
absent field yields "", writing an absent field is a no-op, and
`create_translated_copy_from_note` only ever reports one of its four fixed
messages (none of which is a field-not-found error) — whereas
`translate_note_fields` raises a field-not-found error for a misconfigured
source field name. -/
theorem copy_workflow_field_access_total (note : Note) (name v : String)
    (src_card : Card) (cfg : CopyCfg) (col : Col)
    (note2 : Note) (cfg2 : TConfig) (env : Env) (net : ProviderReq → String) (col2 : Col)
    (habs : hasField note name = false)
    (habs2 : hasField note2 (cfg2.source_field.getD "Front") = false) :
    _get_field note name = ""
    ∧ _set_field note name v = note
    ∧ (create_translated_copy_from_note note src_card cfg col).1.2 ∈
        (["元ノートIDが取得できませんでした。", "既にコピー済み（重複防止）",
          "翻訳フィールドが空のためスキップ", "コピー作成完了"] : List String)
    ∧ (translate_note_fields note2 cfg2 env net col2).1
        = .error ("Source field not found: " ++ cfg2.source_field.getD "Front") := by
  have hnone : note.fields.find? (fun p => p.1 == name) = none := by
    rw [List.find?_eq_none]
    intro x hx
    unfold hasField at habs
    rw [List.any_eq_false] at habs
    exact habs x hx
  refine ⟨?_, ?_, ?_, ?_⟩
  · unfold _get_field lookupF
    rw [hnone]
    rfl
  · unfold _set_field
    rw [if_neg (by simp only [hasField] at habs; simp [habs])]
  · simp only [create_translated_copy_from_note]
    split
    · simp
    · split
      · simp
      · split
        · simp
        · simp
  · simp only [translate_note_fields]
    rw [if_pos habs2]

/-- C10 witness: reading/writing the absent field "Foo" is silent, the copy
workflow reports a fixed message, and the field workflow raises on the
misconfigured field "Nope". -/
theorem copy_workflow_field_access_total_w :
    _get_field noteW "Foo" = ""
    ∧ _set_field noteW "Foo" "x" = noteW
    ∧ (create_translated_copy_from_note noteW cardW cfgDefaults colW).1.2 ∈
        (["元ノートIDが取得できませんでした。", "既にコピー済み（重複防止）",
          "翻訳フィールドが空のためスキップ", "コピー作成完了"] : List String)
    ∧ (translate_note_fields noteW tcfgBadField envNone netW colW).1
        = .error ("Source field not found: " ++ tcfgBadField.source_field.getD "Front") :=
  copy_workflow_field_access_total noteW "Foo" "x" cardW cfgDefaults colW
    noteW tcfgBadField envNone netW colW (by decide) (by decide)
